import Mathlib

/-!
Verification development for the SDRAST/Antenna_DSN repository.

The `NMC` namespace embeds the client side (`nmc_server.py`, class
`NMCServer`): the onsource classifier, the socket `command` wrapper and
the typed accessors.  The `Sim43` namespace embeds the simulator side
(`simulator/nmc_sim43.py` / `simulator/async_nmc_sim43.py`, class
`SimulatedAntenna` plus the socket request handler): state, dispatch
tables, handlers and the background position integrator.

Python floats are modelled as rationals (`ℚ`); `math.cos(math.radians _)`
is abstracted as an unconstrained function `cosd : ℚ → ℚ`, instantiated
in concrete examples by rational values that agree with the real cosine
at the sampled points.
-/

/-- Python's default whitespace set, as recognised by `bytes.strip()` /
`str.strip()` on the characters this protocol uses. -/
def isSpaceChar (c : Char) : Bool :=
  c = ' ' || c = '\n' || c = '\t' || c = '\r'

/-- `s.strip()`: drop whitespace from both ends of a character list. -/
def pyStrip (cs : List Char) : List Char :=
  ((cs.dropWhile isSpaceChar).reverse.dropWhile isSpaceChar).reverse

/-- `s.split(sep)` for a one-character separator: split on every
occurrence, keeping empty pieces, never returning an empty list
(Python's behaviour for a non-null separator). -/
def pySplit (sep : Char) : List Char → List (List Char)
  | [] => [[]]
  | c :: cs =>
    if c = sep then [] :: pySplit sep cs
    else
      match pySplit sep cs with
      | [] => [[c]]
      | t :: ts => (c :: t) :: ts

namespace NMC

/-- One sample of the seven tracking parameters requested by
`NMCServer.onsource` (`nmc_server.py` lines 639-641), already converted
by `float(...)` as in lines 649-659.  `status` is the raw `Status`
monitor-item text. -/
structure OnsourceSample where
  azErr : ℚ
  az : ℚ
  azPred : ℚ
  elErr : ℚ
  el : ℚ
  elPred : ℚ
  status : String

/-- The four pointing tolerances read from `self.status["angle"]`
(`nmc_server.py` lines 669-672): `xel_tol = az_tol`, `el_tol`,
`xel_pred_tol = az_pred_tol`, `el_pred_tol`. -/
structure Tolerances where
  el_tol : ℚ
  xel_tol : ℚ
  el_pred_tol : ℚ
  xel_pred_tol : ℚ

/-- The tolerance values installed by `NMCServer.__init__`
(`nmc_server.py` lines 252-255): `az_tol = el_tol = 0.085`,
`az_pred_tol = el_pred_tol = 0.11`. -/
def defaultTolerances : Tolerances :=
  { el_tol := 17/200, xel_tol := 17/200
    el_pred_tol := 11/100, xel_pred_tol := 11/100 }

/-- `operational_status` list from `nmc_server.py` line 618. -/
def operational_status : List String := ["operational", "marginal"]

/-- `non_operational_status` list from `nmc_server.py` line 619. -/
def non_operational_status : List String := ["critical"]

/-- ASCII lower-casing of one character, as `str.lower()` acts on the
status texts this protocol uses. -/
def lowerChar (c : Char) : Char :=
  if 'A' ≤ c ∧ c ≤ 'Z' then Char.ofNat (c.toNat + 32) else c

/-- Boolean list-prefix test on character lists. -/
def isPrefixL : List Char → List Char → Bool
  | [], _ => true
  | _ :: _, [] => false
  | a :: as, b :: bs => a == b && isPrefixL as bs

/-- Boolean substring test on character lists, modelling Python's
`sub in s` on strings. -/
def isSubL (sub : List Char) : List Char → Bool
  | [] => isPrefixL sub []
  | c :: rest => isPrefixL sub (c :: rest) || isSubL sub rest

/-- `determine_antenna_status` from `nmc_server.py` lines 624-632:
lower-case the `Status` text, report `true` if any operational marker is
a substring, `false` if any critical marker is a substring, else default
to `true`. -/
def determine_antenna_status (resp : String) : Bool :=
  let status := resp.data.map lowerChar
  if operational_status.any (fun s => isSubL s.data status) then true
  else if non_operational_status.any (fun s => isSubL s.data status) then false
  else true

/-- The local closure `xel(el, az) = az * cos(deg2rad(el))` from
`nmc_server.py` lines 634-635, with `cos ∘ deg2rad` abstracted as
`cosd`. -/
def xel (cosd : ℚ → ℚ) (el az : ℚ) : ℚ := az * cosd el

/-- `xel_prev = xel(el_prev, az_prev)` (`nmc_server.py` line 661),
derived from the first sample. -/
def xel_prev (cosd : ℚ → ℚ) (before : OnsourceSample) : ℚ :=
  xel cosd before.el before.az

/-- `xel_cur = xel(el_cur, az_cur)` (`nmc_server.py` line 662). -/
def xel_cur (cosd : ℚ → ℚ) (after : OnsourceSample) : ℚ :=
  xel cosd after.el after.az

/-- `xel_err_cur = xel(el_err_cur, az_err_cur)` (`nmc_server.py`
line 664). -/
def xel_err_cur (cosd : ℚ → ℚ) (after : OnsourceSample) : ℚ :=
  xel cosd after.elErr after.azErr

/-- `xel_pred_cur = xel(el_cur, az_pred_cur)` (`nmc_server.py`
line 665).  Note the first argument is the *current* elevation
`el_cur`, not the predicted elevation. -/
def xel_pred_cur (cosd : ℚ → ℚ) (after : OnsourceSample) : ℚ :=
  xel cosd after.el after.azPred

/-- The classification performed by the non-simulated body of
`NMCServer.onsource` (`nmc_server.py` lines 638-716) as a function of
the two settle-separated samples: the six tolerance comparisons of
lines 703-708 select `"ONSOURCE"`, otherwise the operational flag taken
from the *first* sample's `Status` (line 644) selects `"SLEWING"` or
`"ERROR"`. -/
def onsource (cosd : ℚ → ℚ) (before after : OnsourceSample)
    (tol : Tolerances) : String :=
  let antenna_status_bool := determine_antenna_status before.status
  if |xel_err_cur cosd after| < tol.xel_tol ∧
      |after.elErr| < tol.el_tol ∧
      |xel_cur cosd after - xel_prev cosd before| < tol.xel_tol ∧
      |after.el - before.el| < tol.el_tol ∧
      |xel_pred_cur cosd after - xel_cur cosd after| < tol.xel_pred_tol ∧
      |after.elPred - after.el| < tol.el_pred_tol then
    "ONSOURCE"
  else if antenna_status_bool then "SLEWING"
  else "ERROR"

/-- C1: the point status returned by `onsource` is `ONSOURCE` exactly
when all six tolerance conditions hold; otherwise it is `SLEWING` when
the first sample's `Status` text classifies as operational and `ERROR`
when it does not. -/
theorem onsource_classification (cosd : ℚ → ℚ)
    (before after : OnsourceSample) (tol : Tolerances) :
    (onsource cosd before after tol = "ONSOURCE" ↔
      (|xel_err_cur cosd after| < tol.xel_tol ∧
       |after.elErr| < tol.el_tol ∧
       |xel_cur cosd after - xel_prev cosd before| < tol.xel_tol ∧
       |after.el - before.el| < tol.el_tol ∧
       |xel_pred_cur cosd after - xel_cur cosd after| < tol.xel_pred_tol ∧
       |after.elPred - after.el| < tol.el_pred_tol)) ∧
    (onsource cosd before after tol = "SLEWING" ↔
      (¬(|xel_err_cur cosd after| < tol.xel_tol ∧
         |after.elErr| < tol.el_tol ∧
         |xel_cur cosd after - xel_prev cosd before| < tol.xel_tol ∧
         |after.el - before.el| < tol.el_tol ∧
         |xel_pred_cur cosd after - xel_cur cosd after| < tol.xel_pred_tol ∧
         |after.elPred - after.el| < tol.el_pred_tol) ∧
       determine_antenna_status before.status = true)) ∧
    (onsource cosd before after tol = "ERROR" ↔
      (¬(|xel_err_cur cosd after| < tol.xel_tol ∧
         |after.elErr| < tol.el_tol ∧
         |xel_cur cosd after - xel_prev cosd before| < tol.xel_tol ∧
         |after.el - before.el| < tol.el_tol ∧
         |xel_pred_cur cosd after - xel_cur cosd after| < tol.xel_pred_tol ∧
         |after.elPred - after.el| < tol.el_pred_tol) ∧
       determine_antenna_status before.status = false)) := by
  unfold onsource
  by_cases hsix : (|xel_err_cur cosd after| < tol.xel_tol ∧
       |after.elErr| < tol.el_tol ∧
       |xel_cur cosd after - xel_prev cosd before| < tol.xel_tol ∧
       |after.el - before.el| < tol.el_tol ∧
       |xel_pred_cur cosd after - xel_cur cosd after| < tol.xel_pred_tol ∧
       |after.elPred - after.el| < tol.el_pred_tol) <;>
    by_cases hop : determine_antenna_status before.status <;>
    simp [hsix, hop]

/-- Modelled from the spec: a variant of `onsource` in which the current
predicted cross-elevation is derived, as §4.3 step 5 of the spec words
it, from the `(predicted, predicted)` pair — `xel(el_pred_cur,
az_pred_cur)` — instead of the source's `xel(el_cur, az_pred_cur)`.
Used only to compare the spec's reading against the code. -/
def onsource_specPred (cosd : ℚ → ℚ) (before after : OnsourceSample)
    (tol : Tolerances) : String :=
  let antenna_status_bool := determine_antenna_status before.status
  if |xel_err_cur cosd after| < tol.xel_tol ∧
      |after.elErr| < tol.el_tol ∧
      |xel_cur cosd after - xel_prev cosd before| < tol.xel_tol ∧
      |after.el - before.el| < tol.el_tol ∧
      |xel cosd after.elPred after.azPred - xel_cur cosd after| < tol.xel_pred_tol ∧
      |after.elPred - after.el| < tol.el_pred_tol then
    "ONSOURCE"
  else if antenna_status_bool then "SLEWING"
  else "ERROR"

/-- A concrete stand-in for `cos ∘ deg2rad` that agrees with the real
cosine (to 7 decimal places) at the two elevations sampled by the C6
counterexample: `cos 0° = 1` and `cos 0.1° ≈ 0.9999985`. -/
def cosdSample (q : ℚ) : ℚ :=
  if q = 0 then 1 else if q = 1/10 then 9999985/10000000 else 0

/-- The sample used by the C6 counterexample: zero tracking error, both
azimuth readings and the predicted azimuth at 10⁶ millidegree-scale
units, elevation 0 with predicted elevation 0.1. -/
def sampleC6 : OnsourceSample :=
  { azErr := 0, az := 1000000, azPred := 1000000
    elErr := 0, el := 0, elPred := 1/10, status := "operational" }

/-- C6 counterexample: the code computes the current predicted
cross-elevation from the *current* elevation (`xel(el_cur,
az_pred_cur)`, line 665), not from the predicted elevation as claimed;
at `sampleC6` the two formulas differ, and the classification itself
diverges: the code reports `ONSOURCE` while the spec's uniform
`(predicted, predicted)` reading would report `SLEWING`. -/
theorem onsource_xel_pred_cex :
    xel_pred_cur cosdSample sampleC6 ≠
      xel cosdSample sampleC6.elPred sampleC6.azPred ∧
    onsource cosdSample sampleC6 sampleC6 defaultTolerances = "ONSOURCE" ∧
    onsource_specPred cosdSample sampleC6 sampleC6 defaultTolerances =
      "SLEWING" := by
  have hop : determine_antenna_status "operational" = true := by decide
  refine ⟨?_, ?_, ?_⟩
  · norm_num [xel_pred_cur, xel, cosdSample, sampleC6]
  · norm_num [onsource, xel_err_cur, xel_cur, xel_prev, xel_pred_cur, xel,
      cosdSample, sampleC6, defaultTolerances, abs_lt]
  · norm_num [onsource_specPred, xel_err_cur, xel_cur, xel_prev, xel,
      cosdSample, sampleC6, defaultTolerances, hop, abs_lt]

/-- C6 amended: `xel = az · cos(radians el)` is applied uniformly to the
angle pairs of both samples and to the current error pair, but the
current predicted cross-elevation pairs the predicted azimuth with the
*current* elevation; consequently the predicted elevation influences the
classification only through the `|el_pred − el_cur| < el_pred_tol`
check, so replacing it by any other value inside that tolerance leaves
the result unchanged. -/
theorem onsource_xel_uniform_amended (cosd : ℚ → ℚ)
    (before after : OnsourceSample) (tol : Tolerances) (e : ℚ)
    (h1 : |after.elPred - after.el| < tol.el_pred_tol)
    (h2 : |e - after.el| < tol.el_pred_tol) :
    xel_prev cosd before = before.az * cosd before.el ∧
    xel_cur cosd after = after.az * cosd after.el ∧
    xel_err_cur cosd after = after.azErr * cosd after.elErr ∧
    xel_pred_cur cosd after = after.azPred * cosd after.el ∧
    onsource cosd before after tol =
      onsource cosd before { after with elPred := e } tol := by
  refine ⟨rfl, rfl, rfl, rfl, ?_⟩
  unfold onsource
  apply if_congr ?_ rfl rfl
  constructor
  · rintro ⟨c1, c2, c3, c4, c5, _⟩
    exact ⟨c1, c2, c3, c4, c5, h2⟩
  · rintro ⟨c1, c2, c3, c4, c5, _⟩
    exact ⟨c1, c2, c3, c4, c5, h1⟩

/-- Witness for `onsource_xel_uniform_amended` at a concrete sample. -/
theorem onsource_xel_uniform_amended_witness :
    |(0 : ℚ) - 0| < defaultTolerances.el_pred_tol ∧
    |(1/100 : ℚ) - 0| < defaultTolerances.el_pred_tol ∧
    (xel_prev (fun _ => 1) ⟨0, 0, 0, 0, 0, 0, "operational"⟩ = 0 * 1 ∧
     xel_cur (fun _ => 1) ⟨0, 0, 0, 0, 0, 0, "operational"⟩ = 0 * 1 ∧
     xel_err_cur (fun _ => 1) ⟨0, 0, 0, 0, 0, 0, "operational"⟩ = 0 * 1 ∧
     xel_pred_cur (fun _ => 1) ⟨0, 0, 0, 0, 0, 0, "operational"⟩ = 0 * 1 ∧
     onsource (fun _ => 1) ⟨0, 0, 0, 0, 0, 0, "operational"⟩
        ⟨0, 0, 0, 0, 0, 0, "operational"⟩ defaultTolerances =
      onsource (fun _ => 1) ⟨0, 0, 0, 0, 0, 0, "operational"⟩
        { (⟨0, 0, 0, 0, 0, 0, "operational"⟩ : OnsourceSample) with
            elPred := 1/100 } defaultTolerances) :=
  ⟨by norm_num [defaultTolerances, abs_lt], by norm_num [defaultTolerances, abs_lt],
   onsource_xel_uniform_amended (fun _ => 1)
     ⟨0, 0, 0, 0, 0, 0, "operational"⟩ ⟨0, 0, 0, 0, 0, 0, "operational"⟩
     defaultTolerances (1/100) (by norm_num [defaultTolerances, abs_lt])
     (by norm_num [defaultTolerances, abs_lt])⟩

/-- Client-side socket state: `sent` is the list of fully transmitted
request strings (each `sendall` appends one), `inbuf` the bytes pending
from the peer.  `recv n` returns the first `min n available` pending
bytes, modelling a maximal bounded TCP read. -/
structure SocketState where
  sent : List String
  inbuf : List Char

/-- `self.sock.sendall(command_str)` (`nmc_server.py` line 430). -/
def sendall (sock : SocketState) (s : String) : SocketState :=
  { sock with sent := sock.sent ++ [s] }

/-- `self.sock.recv(recv_val)` (`nmc_server.py` line 432). -/
def recv (sock : SocketState) (n : ℕ) : List Char × SocketState :=
  (sock.inbuf.take n, { sock with inbuf := sock.inbuf.drop n })

/-- `NMCServer.command` (`nmc_server.py` lines 413-439), non-simulated
branch: send the full request with `sendall`, perform a single
`recv(recv_val)` and return that reply verbatim — there is no
reassembly loop. -/
def command (sock : SocketState) (command_str : String) (recv_val : ℕ) :
    List Char × SocketState :=
  let sock1 := sendall sock command_str
  let (resp, sock2) := recv sock1 recv_val
  (resp, sock2)

/-- C5: `command(text, recvSize)` sends the full request, performs
exactly one bounded receive of at most `recvSize` bytes and returns the
received reply verbatim: the reply is precisely the first
`min recvSize available` pending bytes, its length is bounded by
`recvSize`, exactly one request was transmitted, and exactly that one
chunk was consumed from the input. -/
theorem command_single_bounded_recv (sock : SocketState) (s : String)
    (n : ℕ) :
    (command sock s n).1 = sock.inbuf.take n ∧
    (command sock s n).1.length ≤ n ∧
    (command sock s n).2.sent = sock.sent ++ [s] ∧
    (command sock s n).2.inbuf = sock.inbuf.drop n := by
  refine ⟨rfl, ?_, rfl, rfl⟩
  show (sock.inbuf.take n).length ≤ n
  rw [List.length_take]
  exact min_le_left _ _

/-- `NMCServer.get_offsets` (`nmc_server.py` lines 542-555): the reply
values for `ElevationPositionOffset` and `CrossElevationPositionOffset`
are scaled by 1000 and collected by the *set* comprehension
`{1000*float(resp[key]) for key in resp}`, modelled as a `Finset ℚ`. -/
def get_offsets (elOffset xelOffset : ℚ) : Finset ℚ :=
  {1000 * elOffset, 1000 * xelOffset}

/-- C7: `get_offsets` builds an unordered, duplicate-collapsing
collection over the two scaled offsets: the result is symmetric in the
two values, it is literally the pair-`Finset` of the scaled values, and
when the two offsets coincide it has exactly one element instead of
two. -/
theorem get_offsets_collapses (a b : ℚ) :
    get_offsets a b = get_offsets b a ∧
    get_offsets a b = insert (1000 * a) {1000 * b} ∧
    (get_offsets a a).card = 1 := by
  refine ⟨?_, rfl, ?_⟩
  · simp [get_offsets, Finset.pair_comm]
  · simp [get_offsets]

/-- Values appearing in the mapping returned by the client's `get`. -/
inductive GetVal
  | num (q : ℚ)
  | str (s : String)
  | null
deriving DecidableEq

/-- `NMCServer.get` (`nmc_server.py` lines 453-478), including the
`get_params()` initialization preamble of lines 458-459 (which composes
and sends `"GET_PARAMS\n"` through `command` when `server_initialized`
is still false).  Returns the result mapping in Python dict insertion
order together with the list of command strings composed and sent
during the call; `reply` is the raw comma-separated hardware reply
consumed by the non-simulated branch (whose `self.sock is not None`
guard is assumed to pass). -/
def clientGet (simulated server_initialized : Bool)
    (params : List String) (reply : String) :
    List (String × GetVal) × List String :=
  let initCmds : List String :=
    if server_initialized then [] else ["GET_PARAMS\n"]
  if simulated then
    ([("AzimuthAngle", GetVal.num 60), ("ElevationAngle", GetVal.num 45)],
     initCmds)
  else
    let cmd := "PARAM " ++ " ".intercalate params ++ "\n"
    let resp_list := (pySplit ',' reply.data).map fun v => pyStrip v
    let return_vals :=
      if resp_list.length = params.length then
        params.zip (resp_list.map fun v => GetVal.str ⟨v⟩)
      else params.map fun p => (p, GetVal.null)
    (return_vals, initCmds ++ [cmd])

/-- C9 counterexample: in simulated mode with `server_initialized`
still false, `get(["Foo"])` *does* compose and send a command — the
`"GET_PARAMS\n"` initialization request — refuting "no command is
composed or sent"; the returned mapping is nevertheless the constant
one. -/
theorem client_get_simulated_cex :
    (clientGet true false ["Foo"] "").2 = ["GET_PARAMS\n"] ∧
    (clientGet true false ["Foo"] "").2 ≠ [] ∧
    (clientGet true false ["Foo"] "").1 =
      [("AzimuthAngle", GetVal.num 60), ("ElevationAngle", GetVal.num 45)] := by
  refine ⟨rfl, by decide, rfl⟩

/-- C9 amended: in simulated mode `get(*params)` always returns the
constant mapping `{"AzimuthAngle": 60, "ElevationAngle": 45}`,
ignoring which parameters and how many were requested, and composes no
`PARAM` command; once `server_initialized` is true nothing at all is
sent, while the first call sends only the one-time `"GET_PARAMS\n"`
initialization request. -/
theorem client_get_simulated_amended (init : Bool) (params : List String)
    (reply : String) :
    (clientGet true init params reply).1 =
      [("AzimuthAngle", GetVal.num 60), ("ElevationAngle", GetVal.num 45)] ∧
    (clientGet true true params reply).2 = [] ∧
    (clientGet true false params reply).2 = ["GET_PARAMS\n"] := by
  refine ⟨?_, rfl, rfl⟩
  cases init <;> rfl

end NMC

namespace Sim43

/-- Per-axis entry of `SimulatedAntenna.offsets`
(`nmc_sim43.py` lines 182-193). -/
structure AxisOffset where
  accumulated : ℚ
  offset : ℚ
  rate : ℚ
deriving DecidableEq

/-- Per-axis entry of `SimulatedAntenna.point`
(`nmc_sim43.py` lines 194-203). -/
structure AxisPoint where
  predicted : ℚ
  actual : ℚ
deriving DecidableEq

/-- The mutable state of `SimulatedAntenna` (`nmc_sim43.py`
lines 179-218; the async variant holds the same fields).  The
time-dependent `ANGTIME` / `CurrentDoyTime` parameter strings are kept
as abstract snapshot fields. -/
structure AntState where
  onsource_counter : ℕ
  elOff : AxisOffset
  xelOff : AxisOffset
  azPoint : AxisPoint
  elPoint : AxisPoint
  wrap : ℚ
  temperature : ℚ
  pressure : ℚ
  humidity : ℚ
  windspeed : ℚ
  winddirection : ℚ
  precipitation : ℚ
  wxHr : ℚ
  wxMin : ℚ
  wxSec : ℚ
  utcTimestamp : ℚ
  angtime : String
  doyTime : String
deriving DecidableEq

/-- `SimulatedAntenna.__init__`: zero offsets with rate 1.0, elevation
parked at 88°, azimuth predicted/actual at the wrap-table centre (the
external `antenna_wrap[number]['wrap']['center']` value, taken here as
the parameter `azCenter`), all weather fields 0. -/
def initState (azCenter : ℚ) : AntState :=
  { onsource_counter := 0
    elOff := { accumulated := 0, offset := 0, rate := 1 }
    xelOff := { accumulated := 0, offset := 0, rate := 1 }
    azPoint := { predicted := azCenter, actual := azCenter }
    elPoint := { predicted := 88, actual := 88 }
    wrap := 0, temperature := 0, pressure := 0, humidity := 0
    windspeed := 0, winddirection := 0, precipitation := 0
    wxHr := 0, wxMin := 0, wxSec := 0, utcTimestamp := 0
    angtime := "", doyTime := "" }

/-- Value of an all-digit run, `none` as soon as a non-digit appears
(`some 0` for the empty run; emptiness is checked by the caller). -/
def digitsVal (cs : List Char) : Option ℕ :=
  cs.foldl (fun acc c => acc.bind fun n =>
    if c.isDigit then some (10 * n + (c.toNat - 48)) else none) (some 0)

/-- Models Python's `float()` on the plain signed decimal literals used
on this wire (`[+|-]digits[.digits]` with at least one digit,
surrounding whitespace stripped); `none` models the `ValueError` raised
on anything else.  Scientific notation and the other spellings
`float()` accepts do not occur in the modelled code paths. -/
def parseFloat (s : String) : Option ℚ :=
  let cs := pyStrip s.data
  let signBody : ℚ × List Char :=
    match cs with
    | '-' :: rest => (-1, rest)
    | '+' :: rest => (1, rest)
    | _ => (1, cs)
  let intPart := signBody.2.takeWhile (fun c => c ≠ '.')
  match signBody.2.drop intPart.length with
  | [] =>
    if intPart.isEmpty then none
    else (digitsVal intPart).map fun n => signBody.1 * n
  | _ :: frac =>
    if intPart.isEmpty && frac.isEmpty then none
    else (digitsVal intPart).bind fun n =>
      (digitsVal frac).map fun f =>
        signBody.1 * ((n : ℚ) + (f : ℚ) / (10 : ℚ) ^ frac.length)

/-- ASCII upper-casing of one character, as `str.upper()` /
`bytes.upper()` act on the protocol tokens. -/
def upperChar (c : Char) : Char :=
  if 'a' ≤ c ∧ c ≤ 'z' then Char.ofNat (c.toNat - 32) else c

/-- `s.upper()` on a token. -/
def toUpperS (s : String) : String := ⟨s.data.map upperChar⟩

/-- One monitor-item value as produced by the `self.params` lambdas
before being formatted with `str(...)`. -/
inductive ParamVal
  | num (q : ℚ)
  | str (s : String)
deriving DecidableEq

/-- A handler reply before the final byte encoding: a plain string, a
`", "`-joined list of `PARAM` values, a `"COMPLETED ..."` payload, or
the joined key list of `GET_COMMANDS`/`GET_PARAMS`. -/
inductive Reply
  | text (s : String)
  | vals (l : List ParamVal)
  | completedData (l : List ParamVal)
  | names (l : List String)
deriving DecidableEq

/-- Keys of `self.commands` (`nmc_sim43.py` lines 220-233), in
insertion order. -/
def commandNames : List String :=
  ["ANTENNA", "PARAM", "GET_WEATHER", "GET_OFFSETS", "GET_AZEL",
   "GET_HADEC", "TERMINATE", "ONSOURCE", "WAITONSOURCE", "GET_COMMANDS",
   "GET_PARAMS", "ATTEN"]

/-- Keys of `self.params` (`nmc_sim43.py` lines 246-275), in insertion
order. -/
def paramNames : List String :=
  ["temperature", "pressure", "windspeed", "winddirection",
   "precipitation", "total_precipitation", "humidity", "WxHr", "WxMin",
   "WxSec", "AzimuthPredictedAngle", "AzimuthAngle",
   "ElevationPredictedAngle", "ElevationAngle", "WRAP",
   "AzimuthTrackingError", "ElevationTrackingError", "Status",
   "AxisAngleTime", "ElevationManualOffset", "ElevationPositionOffset",
   "ElevationAccumulatedRateOffset", "CrossElevationManualOffset",
   "CrossElevationPositionOffset",
   "CrossElevationAccumulatedRateOffset", "AzimuthAngleWrap", "ANGTIME",
   "CurrentDoyTime"]

/-- The `self.params` lambda table (`nmc_sim43.py` lines 246-275):
look a requested monitor item up and take its current value.  The
offset entries go through `get_offset`/`get_accum_offset`, i.e. the
`offset` and `accumulated` fields. -/
def paramValue (st : AntState) : String → Option ParamVal
  | "temperature" => some (.num st.temperature)
  | "pressure" => some (.num st.pressure)
  | "windspeed" => some (.num st.windspeed)
  | "winddirection" => some (.num st.winddirection)
  | "precipitation" => some (.num st.precipitation)
  | "total_precipitation" => some (.num st.precipitation)
  | "humidity" => some (.num st.humidity)
  | "WxHr" => some (.num st.wxHr)
  | "WxMin" => some (.num st.wxMin)
  | "WxSec" => some (.num st.wxSec)
  | "AzimuthPredictedAngle" => some (.num st.azPoint.predicted)
  | "AzimuthAngle" => some (.num st.azPoint.actual)
  | "ElevationPredictedAngle" => some (.num st.elPoint.predicted)
  | "ElevationAngle" => some (.num st.elPoint.actual)
  | "WRAP" => some (.num st.wrap)
  | "AzimuthTrackingError" => some (.num 0)
  | "ElevationTrackingError" => some (.num 0)
  | "Status" => some (.str "operational")
  | "AxisAngleTime" => some (.num 0)
  | "ElevationManualOffset" => some (.num st.elOff.accumulated)
  | "ElevationPositionOffset" => some (.num st.elOff.offset)
  | "ElevationAccumulatedRateOffset" => some (.num st.elOff.accumulated)
  | "CrossElevationManualOffset" => some (.num st.xelOff.accumulated)
  | "CrossElevationPositionOffset" => some (.num st.xelOff.offset)
  | "CrossElevationAccumulatedRateOffset" => some (.num st.xelOff.accumulated)
  | "AzimuthAngleWrap" => some (.num st.wrap)
  | "ANGTIME" => some (.str st.angtime)
  | "CurrentDoyTime" => some (.str st.doyTime)
  | _ => none

/-- `SimulatedAntenna.get_offset` (`nmc_sim43.py` lines 430-434):
direct `self.offsets[axis]["offset"]` lookup; an unknown axis raises
`KeyError`, modelled as `none`. -/
def get_offset (st : AntState) : String → Option ℚ
  | "EL" => some st.elOff.offset
  | "XEL" => some st.xelOff.offset
  | _ => none

/-- `SimulatedAntenna.set_offset` (`nmc_sim43.py` lines 467-481;
async variant lines 295-308 is field-for-field identical): convert the
argument with `float()` (a failure there raises, modelled as `none`),
upper-case the axis, silently ignore unknown axes, and overwrite
*both* the `offset` and the `accumulated` field with the new value. -/
def set_offset (st : AntState) (axis offset : String) : Option AntState :=
  match parseFloat offset with
  | none => none
  | some v =>
    let ax := toUpperS axis
    if ax = "EL" then
      some { st with elOff := { st.elOff with offset := v, accumulated := v } }
    else if ax = "XEL" then
      some { st with xelOff := { st.xelOff with offset := v, accumulated := v } }
    else some st

/-- `SimulatedAntenna.set_rate` (`nmc_sim43.py` lines 450-465): the
debug log indexes `self.offsets[axis]` before the membership check, so
an unknown axis raises `KeyError` (modelled as `none`); otherwise the
rate field is overwritten with `float(rate)`.  The offset-rate thread
restart is not part of the state modelled here. -/
def set_rate (st : AntState) (axis rate : String) : Option AntState :=
  let ax := toUpperS axis
  if ax = "EL" then
    (parseFloat rate).map fun r => { st with elOff := { st.elOff with rate := r } }
  else if ax = "XEL" then
    (parseFloat rate).map fun r => { st with xelOff := { st.xelOff with rate := r } }
  else none

/-- `antenna_hi` (`nmc_sim43.py` lines 325-328). -/
def antenna_hi (st : AntState) (_rl : List String) : Option Reply × AntState :=
  (some (.text "COMPLETED"), st)

/-- `antenna_move` (`nmc_sim43.py` lines 310-313). -/
def antenna_move (st : AntState) (_rl : List String) : Option Reply × AntState :=
  (some (.text "COMPLETED"), st)

/-- `antenna_semn` (`nmc_sim43.py` lines 315-318). -/
def antenna_semn (st : AntState) (_rl : List String) : Option Reply × AntState :=
  (some (.text "COMPLETED"), st)

/-- `antenna_trk` (`nmc_sim43.py` lines 320-323). -/
def antenna_trk (st : AntState) (_rl : List String) : Option Reply × AntState :=
  (some (.text "COMPLETED"), st)

/-- `antenna_ro` (`nmc_sim43.py` lines 330-339): exactly four tokens
set the rate and reply `COMPLETED`, anything else replies
`REJECTED`. -/
def antenna_ro (st : AntState) (rl : List String) : Option Reply × AntState :=
  match rl with
  | [_, _, axis, rate] =>
    match set_rate st axis rate with
    | none => (none, st)
    | some st2 => (some (.text "COMPLETED"), st2)
  | _ => (some (.text "REJECTED"), st)

/-- `antenna_po` (`nmc_sim43.py` lines 341-351): exactly four tokens
set the position offset and reply `COMPLETED` (also for an unknown
axis, which `set_offset` silently ignores), anything else replies
`REJECTED`. -/
def antenna_po (st : AntState) (rl : List String) : Option Reply × AntState :=
  match rl with
  | [_, _, axis, offset] =>
    match set_offset st axis offset with
    | none => (none, st)
    | some st2 => (some (.text "COMPLETED"), st2)
  | _ => (some (.text "REJECTED"), st)

/-- `antenna_clr` (`nmc_sim43.py` lines 353-373): `CLR RO` zeroes both
rates (and stops the rate thread), `CLR PO` zeroes both offset and
accumulated fields; any other third token, or fewer than three tokens,
replies `REJECTED`. -/
def antenna_clr (st : AntState) (rl : List String) : Option Reply × AntState :=
  match rl with
  | _ :: _ :: sub :: _ =>
    if sub = "RO" then
      (some (.text "COMPLETED"),
       { st with elOff := { st.elOff with rate := 0 },
                 xelOff := { st.xelOff with rate := 0 } })
    else if sub = "PO" then
      (some (.text "COMPLETED"),
       { st with elOff := { st.elOff with offset := 0, accumulated := 0 },
                 xelOff := { st.xelOff with offset := 0, accumulated := 0 } })
    else (some (.text "REJECTED"), st)
  | _ => (some (.text "REJECTED"), st)

/-- `antenna_radec` (`nmc_sim43.py` lines 376-383): four tokens spawn
the pointing thread and then return Python `None` (`resp = None`), so
no reply is produced; anything else replies `REJECTED`.  The spawned
`PointThread` dynamics are modelled by `pointTick` below. -/
def antenna_radec (st : AntState) (rl : List String) : Option Reply × AntState :=
  match rl with
  | [_, _, _ra, _dec] => (none, st)
  | _ => (some (.text "REJECTED"), st)

/-- `antenna_azel` (`nmc_sim43.py` lines 385-386) raises
`NotImplementedError`. -/
def antenna_azel (st : AntState) (_rl : List String) : Option Reply × AntState :=
  (none, st)

/-- `SimulatedAntenna.antenna_cmd` (`nmc_sim43.py` lines 388-398): with
a second token present, scan `antenna_subcommands` for a match; an
unmatched sub-command falls off the end of the `for` loop and the
method returns Python `None`.  Only a missing second token reaches the
`else: return "REJECTED"` branch. -/
def antenna_cmd (st : AntState) (rl : List String) : Option Reply × AntState :=
  match rl with
  | _ :: second :: _ =>
    let s := toUpperS second
    if s = "HI" then antenna_hi st rl
    else if s = "RO" then antenna_ro st rl
    else if s = "PO" then antenna_po st rl
    else if s = "CLR" then antenna_clr st rl
    else if s = "TRK" then antenna_trk st rl
    else if s = "MOVE" then antenna_move st rl
    else if s = "SEMN" then antenna_semn st rl
    else if s = "RADEC" then antenna_radec st rl
    else if s = "AZEL" then antenna_azel st rl
    else (none, st)
  | _ => (some (.text "REJECTED"), st)

/-- `SimulatedAntenna.get` (`nmc_sim43.py` lines 400-408): the values
of every requested parameter that is registered, in request order,
joined with `", "` on the wire. -/
def get (st : AntState) (rl : List String) : Reply :=
  .vals ((rl.drop 1).filterMap (paramValue st))

/-- `get_weather` (`nmc_sim43.py` lines 410-423); the last three fields
are colon-joined on the wire. -/
def get_weather (st : AntState) : Reply :=
  .completedData [.num st.temperature, .num st.pressure,
    .num st.humidity, .num st.windspeed, .num st.winddirection,
    .num st.precipitation, .num st.wxHr, .num st.wxMin, .num st.wxSec]

/-- `get_offsets` (`nmc_sim43.py` lines 425-428):
`COMPLETED el_offset 0 xel_offset 0`. -/
def get_offsets (st : AntState) : Reply :=
  .completedData [.num st.elOff.offset, .num 0, .num st.xelOff.offset,
    .num 0]

/-- `get_azel` (`nmc_sim43.py` lines 498-502). -/
def get_azel (st : AntState) : Reply :=
  .completedData [.num st.azPoint.actual, .num st.elPoint.actual,
    .num st.wrap, .num st.utcTimestamp]

/-- `get_hadec` (`nmc_sim43.py` lines 504-507). -/
def get_hadec (_st : AntState) : Reply :=
  .completedData [.num 0, .num 0, .num 0, .num 0]

/-- `SimulatedAntenna.onsource` (`nmc_sim43.py` lines 514-522): a
four-phase counter — three `SLEWING` replies, then `ONSOURCE` and
reset. -/
def onsource (st : AntState) : Option Reply × AntState :=
  if st.onsource_counter ≥ 3 then
    (some (.text "COMPLETED ONSOURCE"), { st with onsource_counter := 0 })
  else
    (some (.text "COMPLETED SLEWING"),
     { st with onsource_counter := st.onsource_counter + 1 })

/-- The token split of `process_request` (`nmc_sim43.py` line 294):
`[r.strip() for r in request_str.split(b" ")]`. -/
def tokenize (s : String) : List String :=
  (pySplit ' ' s.data).map fun t => ⟨pyStrip t⟩

/-- `SimulatedAntenna.process_request` (`nmc_sim43.py` lines 281-308):
split and strip the raw request, upper-case the first token and scan
the `commands` table; no match yields the reply `"ERROR"`.  The reply
component is `none` whenever the selected handler returns Python `None`
or raises (both end with no reply sent and an error logged by the
socket handler, the connection staying open). -/
def process_request (st : AntState) (request_str : String) :
    Option Reply × AntState :=
  let split := tokenize request_str
  let first := toUpperS (split.headD "")
  if first = "ANTENNA" then antenna_cmd st split
  else if first = "PARAM" then (some (get st split), st)
  else if first = "GET_WEATHER" then (some (get_weather st), st)
  else if first = "GET_OFFSETS" then (some (get_offsets st), st)
  else if first = "GET_AZEL" then (some (get_azel st), st)
  else if first = "GET_HADEC" then (some (get_hadec st), st)
  else if first = "TERMINATE" then (some (.text "COMPLETED"), st)
  else if first = "ONSOURCE" then onsource st
  else if first = "WAITONSOURCE" then (some (.text "COMPLETED"), st)
  else if first = "GET_COMMANDS" then (some (.names commandNames), st)
  else if first = "GET_PARAMS" then (some (.names paramNames), st)
  else if first = "ATTEN" then (some (.text "COMPLETED"), st)
  else (some (.text "ERROR"), st)

/-- `data.find(self.break_char) != -1`: whether a received chunk
contains the line terminator. -/
def hasNL : List Char → Bool
  | [] => false
  | c :: cs => c == '\n' || hasNL cs

/-- The accumulation loop of `NMCRequestHandler.handle`
(`nmc_sim43.py` lines 591-594; async `handle_client` lines 517-519):
while the *most recent* chunk lacks the terminator, read the next chunk
and append it to `accum`.  The first argument is the stream of chunks
still to be delivered; `none` models blocking forever on an exhausted
stream. -/
def recvAccum : List (List Char) → List Char → List Char → Option (List Char)
  | [], data, accum => if hasNL data then some accum else none
  | c :: cs, data, accum =>
    if hasNL data then some accum else recvAccum cs c (accum ++ c)

/-- One iteration of the outer `while True` of
`NMCRequestHandler.handle` (`nmc_sim43.py` lines 586-594) up to the
point where a full line has been accumulated: a closed connection
(empty first chunk) breaks out, otherwise the inner loop runs. -/
def handleRecv (chunks : List (List Char)) : Option (List Char) :=
  match chunks with
  | [] => none
  | c :: cs => if c.isEmpty then none else recvAccum cs c c

/-- A delivery of the same bytes one chunk per byte. -/
def oneByteChunks (cs : List Char) : List (List Char) :=
  cs.map fun c => [c]

/-- The accumulated line handed to `antenna.process_request`
(`nmc_sim43.py` line 599), together with the dispatch it produces. -/
def handleServe (st : AntState) (chunks : List (List Char)) :
    Option (Option Reply × AntState) :=
  (handleRecv chunks).map fun line => process_request st ⟨line⟩

/-- `get_direction` from `PointThread.run` (`nmc_sim43.py`
lines 140-144). -/
def get_direction (diff : ℚ) : ℚ := if diff < 0 then -1 else 1

/-- The per-axis movement step of `PointThread.run` (`nmc_sim43.py`
lines 161-166; async `point_antenna` lines 466-471 is identical): move
`actual` toward `predicted` by the raw `slew_rate` when farther away
than `slew_rate`, otherwise snap `actual` to `predicted`.  The loop
compares and steps with `slew_rate` itself. -/
def tickAxis (slew_rate predicted actual : ℚ) : ℚ :=
  if |predicted - actual| > slew_rate then
    actual + get_direction (predicted - actual) * slew_rate
  else predicted

/-- The two tracked axes of `SimulatedAntenna.point`. -/
structure PointPair where
  az : AxisPoint
  el : AxisPoint

set_option linter.unusedVariables false in
/-- One full tick of `PointThread.run` (`nmc_sim43.py` lines 153-172):
store the freshly commanded az/el as `predicted`, then advance each
axis with `tickAxis`.  The product `slew_amount = slew_rate *
update_rate` of line 160 is computed but never used — the tick period
does not enter the step. -/
def pointTick (slew_rate update_rate : ℚ) (p : PointPair)
    (commanded_az commanded_el : ℚ) : PointPair :=
  let slew_amount := slew_rate * update_rate
  { az := { predicted := commanded_az
            actual := tickAxis slew_rate commanded_az p.az.actual }
    el := { predicted := commanded_el
            actual := tickAxis slew_rate commanded_el p.el.actual } }

/-- C3: evaluation at the failing input.  An unknown top-level token is
answered `"ERROR"` as the claim states, and a bare `ANTENNA` gets
`"REJECTED"`; but an `ANTENNA` request whose sub-command matches no
registered sub-command makes `antenna_cmd` fall off the end of its
dispatch loop and return Python `None` — no `"REJECTED"` (or any)
reply is produced, the send then fails and is logged, and the
connection stays open. -/
theorem unknown_dispatch_replies (st : AntState) :
    process_request st "FOO\n" = (some (.text "ERROR"), st) ∧
    process_request st "ANTENNA FOO\n" = (none, st) ∧
    antenna_cmd st ["ANTENNA", "FOO"] = (none, st) ∧
    antenna_cmd st ["ANTENNA"] = (some (.text "REJECTED"), st) := by
  refine ⟨?_, ?_, ?_, ?_⟩ <;> rfl

/-- Every list followed by the terminator byte contains it. -/
theorem hasNL_append_nl (t : List Char) : hasNL (t ++ ['\n']) = true := by
  induction t with
  | nil => rfl
  | cons c cs ih => simp [hasNL, ih]

/-- Byte-at-a-time delivery accumulates the whole line: as long as the
chunk last read has no terminator, the loop keeps appending the
singleton chunks until the final `['\n']` chunk arrives. -/
theorem recvAccum_oneByte (t : List Char) : ∀ d accum : List Char,
    hasNL d = false → hasNL t = false →
    recvAccum (oneByteChunks (t ++ ['\n'])) d accum =
      some (accum ++ t ++ ['\n']) := by
  induction t with
  | nil =>
    intro d accum hd _
    simp [oneByteChunks, recvAccum, hd, hasNL]
  | cons x xs ih =>
    intro d accum hd ht
    have hx : hasNL [x] = false := by
      simp [hasNL] at ht ⊢
      exact ht.1
    have hxs : hasNL xs = false := by
      simp [hasNL] at ht
      exact ht.2
    have step : recvAccum (oneByteChunks ((x :: xs) ++ ['\n'])) d accum =
        recvAccum (oneByteChunks (xs ++ ['\n'])) [x] (accum ++ [x]) := by
      simp [oneByteChunks, recvAccum, hd]
    rw [step, ih [x] (accum ++ [x]) hx hxs]
    simp

/-- C8: protocol framing is chunk-size independent.  For a request line
whose terminator occurs only at its end, delivering it one byte at a
time and delivering it whole produce the same accumulated buffer (the
full line), and therefore the same dispatch through `process_request`
and the same reply. -/
theorem framing_chunk_independent (st : AntState) (t : List Char)
    (h : hasNL t = false) :
    handleRecv (oneByteChunks (t ++ ['\n'])) = some (t ++ ['\n']) ∧
    handleRecv [t ++ ['\n']] = some (t ++ ['\n']) ∧
    handleServe st (oneByteChunks (t ++ ['\n'])) =
      handleServe st [t ++ ['\n']] := by
  have h1 : handleRecv (oneByteChunks (t ++ ['\n'])) = some (t ++ ['\n']) := by
    cases t with
    | nil => rfl
    | cons x xs =>
      have hx : hasNL [x] = false := by
        simp [hasNL] at h ⊢
        exact h.1
      have hxs : hasNL xs = false := by
        simp [hasNL] at h
        exact h.2
      have step : handleRecv (oneByteChunks ((x :: xs) ++ ['\n'])) =
          recvAccum (oneByteChunks (xs ++ ['\n'])) [x] [x] := by
        simp [oneByteChunks, handleRecv]
      rw [step, recvAccum_oneByte xs [x] [x] hx hxs]
      simp
  have h2 : handleRecv [t ++ ['\n']] = some (t ++ ['\n']) := by
    have hne : (t ++ ['\n']).isEmpty = false := by
      cases t <;> simp
    simp [handleRecv, hne, recvAccum, hasNL_append_nl]
  exact ⟨h1, h2, by simp [handleServe, h1, h2]⟩

/-- Witness for `framing_chunk_independent` on the `GET_AZEL` line. -/
theorem framing_chunk_independent_witness :
    hasNL "GET_AZEL".data = false ∧
    (handleRecv (oneByteChunks ("GET_AZEL".data ++ ['\n'])) =
        some ("GET_AZEL".data ++ ['\n']) ∧
     handleRecv ["GET_AZEL".data ++ ['\n']] =
        some ("GET_AZEL".data ++ ['\n']) ∧
     handleServe (initState 0) (oneByteChunks ("GET_AZEL".data ++ ['\n'])) =
        handleServe (initState 0) ["GET_AZEL".data ++ ['\n']]) :=
  ⟨by decide, framing_chunk_independent (initState 0) "GET_AZEL".data (by decide)⟩

/-- C2 counterexample: with `slew_rate = 1` and `update_rate = 1/2`,
one tick from `actual = 0` toward `predicted = 10` moves the azimuth
axis by `1`, exceeding the claimed per-tick bound
`slewRateCap × tickPeriod = 1/2`: the step uses the raw `slew_rate`
and ignores the tick period (the computed `slew_amount` is dead). -/
theorem point_tick_rate_cex :
    (pointTick 1 (1/2) ⟨⟨0, 0⟩, ⟨0, 0⟩⟩ 10 10).az.actual = 1 ∧
    ¬ |(pointTick 1 (1/2) ⟨⟨0, 0⟩, ⟨0, 0⟩⟩ 10 10).az.actual - 0| ≤
        1 * (1/2) := by
  have h10 : |(10 : ℚ) - 0| > 1 := by
    rw [show |(10 : ℚ) - 0| = 10 by norm_num]
    norm_num
  constructor
  · show tickAxis 1 10 0 = 1
    rw [tickAxis, if_pos h10, get_direction, if_neg (by norm_num)]
    norm_num
  · show ¬ |tickAxis 1 10 0 - 0| ≤ 1 * (1/2)
    rw [tickAxis, if_pos h10, get_direction, if_neg (by norm_num)]
    rw [show |(0 : ℚ) + 1 * 1 - 0| = 1 by norm_num]
    norm_num

/-- One `tickAxis` step with a non-negative slew rate moves by at most
`slew_rate`, gets no farther from `predicted`, and never crosses to
the other side of `predicted`. -/
theorem tickAxis_step (s p a : ℚ) (hs : 0 ≤ s) :
    |tickAxis s p a - a| ≤ s ∧
    |p - tickAxis s p a| ≤ |p - a| ∧
    0 ≤ (p - tickAxis s p a) * (p - a) := by
  unfold tickAxis get_direction
  by_cases hfar : |p - a| > s
  · rw [if_pos hfar]
    by_cases hneg : p - a < 0
    · rw [if_pos hneg]
      rw [abs_of_neg hneg] at hfar
      refine ⟨?_, ?_, ?_⟩
      · rw [show a + -1 * s - a = -s by ring, abs_neg, abs_of_nonneg hs]
      · rw [show p - (a + -1 * s) = p - a + s by ring, abs_of_neg hneg,
          abs_of_nonpos (by linarith)]
        linarith
      · rw [show p - (a + -1 * s) = p - a + s by ring]
        nlinarith
    · rw [if_neg hneg]
      push_neg at hneg
      rw [abs_of_nonneg (by linarith)] at hfar
      refine ⟨?_, ?_, ?_⟩
      · rw [show a + 1 * s - a = s by ring, abs_of_nonneg hs]
      · rw [show p - (a + 1 * s) = p - a - s by ring,
          abs_of_nonneg (by linarith : (0 : ℚ) ≤ p - a),
          abs_of_nonneg (by linarith)]
        linarith
      · rw [show p - (a + 1 * s) = p - a - s by ring]
        nlinarith
  · rw [if_neg hfar]
    push_neg at hfar
    refine ⟨hfar, ?_, ?_⟩ <;> simp [abs_nonneg]

/-- C2 amended: each tick of the position tracker moves each axis by at
most the raw `slewRateCap` — independently of the tick period, which
never enters the step — and never moves `actual` past `predicted`
(distance to `predicted` shrinks and the sign of the residual never
flips), for any commanded position, including an instantaneous jump in
`predicted`. -/
theorem point_tick_bounded_no_overshoot (s u : ℚ) (p : PointPair)
    (caz cel : ℚ) (hs : 0 ≤ s) :
    pointTick s u p caz cel = pointTick s 1 p caz cel ∧
    |(pointTick s u p caz cel).az.actual - p.az.actual| ≤ s ∧
    |caz - (pointTick s u p caz cel).az.actual| ≤ |caz - p.az.actual| ∧
    0 ≤ (caz - (pointTick s u p caz cel).az.actual) * (caz - p.az.actual) ∧
    |(pointTick s u p caz cel).el.actual - p.el.actual| ≤ s ∧
    |cel - (pointTick s u p caz cel).el.actual| ≤ |cel - p.el.actual| ∧
    0 ≤ (cel - (pointTick s u p caz cel).el.actual) * (cel - p.el.actual) := by
  obtain ⟨h1, h2, h3⟩ := tickAxis_step s caz p.az.actual hs
  obtain ⟨h4, h5, h6⟩ := tickAxis_step s cel p.el.actual hs
  exact ⟨rfl, h1, h2, h3, h4, h5, h6⟩

/-- Witness for `point_tick_bounded_no_overshoot` at slew rate 1, tick
period 3, a predicted jump to (10, 5). -/
theorem point_tick_bounded_no_overshoot_witness :
    (0 : ℚ) ≤ 1 ∧
    (pointTick 1 3 ⟨⟨0, 0⟩, ⟨0, 0⟩⟩ 10 5 = pointTick 1 1 ⟨⟨0, 0⟩, ⟨0, 0⟩⟩ 10 5 ∧
     |(pointTick 1 3 ⟨⟨0, 0⟩, ⟨0, 0⟩⟩ 10 5).az.actual - (0 : ℚ)| ≤ 1 ∧
     |(10 : ℚ) - (pointTick 1 3 ⟨⟨0, 0⟩, ⟨0, 0⟩⟩ 10 5).az.actual| ≤ |(10 : ℚ) - 0| ∧
     0 ≤ ((10 : ℚ) - (pointTick 1 3 ⟨⟨0, 0⟩, ⟨0, 0⟩⟩ 10 5).az.actual) * ((10 : ℚ) - 0) ∧
     |(pointTick 1 3 ⟨⟨0, 0⟩, ⟨0, 0⟩⟩ 10 5).el.actual - (0 : ℚ)| ≤ 1 ∧
     |(5 : ℚ) - (pointTick 1 3 ⟨⟨0, 0⟩, ⟨0, 0⟩⟩ 10 5).el.actual| ≤ |(5 : ℚ) - 0| ∧
     0 ≤ ((5 : ℚ) - (pointTick 1 3 ⟨⟨0, 0⟩, ⟨0, 0⟩⟩ 10 5).el.actual) * ((5 : ℚ) - 0)) :=
  ⟨by norm_num,
   point_tick_bounded_no_overshoot 1 3 ⟨⟨0, 0⟩, ⟨0, 0⟩⟩ 10 5 (by norm_num)⟩

/-- The `params`-table key holding an axis's position offset. -/
def posOffsetParam (axis : String) : String :=
  if axis = "EL" then "ElevationPositionOffset"
  else "CrossElevationPositionOffset"

/-- C4: for axis ∈ {EL, XEL}, writing a position offset and reading it
back returns exactly the written value — through `set_offset` /
`get_offset` directly, and through the wire path: `ANTENNA PO axis v`
replies `COMPLETED` and a subsequent `PARAM` read of the axis's
position offset reports exactly `v`. -/
theorem set_get_offset_roundtrip (st : AntState) (axis sv : String)
    (v : ℚ) (hax : axis = "EL" ∨ axis = "XEL")
    (hsv : parseFloat sv = some v) :
    (set_offset st axis sv).bind (fun st2 => get_offset st2 axis) = some v ∧
    (antenna_po st ["ANTENNA", "PO", axis, sv]).1 =
      some (.text "COMPLETED") ∧
    paramValue (antenna_po st ["ANTENNA", "PO", axis, sv]).2
      (posOffsetParam axis) = some (.num v) := by
  have hEL : toUpperS "EL" = "EL" := rfl
  have hXEL : toUpperS "XEL" = "XEL" := rfl
  have hne : ("XEL" : String) ≠ "EL" := by decide
  rcases hax with h | h <;> subst h
  · refine ⟨?_, ?_, ?_⟩ <;>
      simp [set_offset, get_offset, antenna_po, paramValue, posOffsetParam,
        hsv, hEL]
  · refine ⟨?_, ?_, ?_⟩ <;>
      simp [set_offset, get_offset, antenna_po, paramValue, posOffsetParam,
        hsv, hXEL, hne]

/-- Witness for `set_get_offset_roundtrip` on `ANTENNA PO EL 5.0`. -/
theorem set_get_offset_roundtrip_witness :
    (("EL" : String) = "EL" ∨ ("EL" : String) = "XEL") ∧
    parseFloat "5.0" = some 5 ∧
    ((set_offset (initState 0) "EL" "5.0").bind
        (fun st2 => get_offset st2 "EL") = some 5 ∧
     (antenna_po (initState 0) ["ANTENNA", "PO", "EL", "5.0"]).1 =
        some (.text "COMPLETED") ∧
     paramValue (antenna_po (initState 0) ["ANTENNA", "PO", "EL", "5.0"]).2
        (posOffsetParam "EL") = some (.num 5)) := by
  have hd : "5.0".data = ['5', '.', '0'] := rfl
  have hpf : parseFloat "5.0" = some 5 := by
    simp [parseFloat, hd, pyStrip, isSpaceChar, digitsVal, List.dropWhile,
      List.takeWhile, List.foldl]
  exact ⟨Or.inl rfl, hpf,
    set_get_offset_roundtrip (initState 0) "EL" "5.0" 5 (Or.inl rfl) hpf⟩

/-- C10: `set_offset(axis, v)` — the handler behind `ANTENNA PO` —
overwrites *both* the axis's `offset` field and its `accumulated`
rate-offset field with `v` (leaving `rate` and the other axis alone);
the accumulated field does not survive a position-offset write. -/
theorem set_offset_writes_accumulated (st : AntState) (sv : String)
    (v : ℚ) (hsv : parseFloat sv = some v) :
    set_offset st "EL" sv =
      some { st with elOff := { accumulated := v, offset := v,
                                rate := st.elOff.rate } } ∧
    set_offset st "XEL" sv =
      some { st with xelOff := { accumulated := v, offset := v,
                                 rate := st.xelOff.rate } } := by
  have hEL : toUpperS "EL" = "EL" := rfl
  have hXEL : toUpperS "XEL" = "XEL" := rfl
  have hne : ("XEL" : String) ≠ "EL" := by decide
  constructor <;> simp [set_offset, hsv, hEL, hXEL, hne]

/-- Witness for `set_offset_writes_accumulated` at `v = 5`. -/
theorem set_offset_writes_accumulated_witness :
    parseFloat "5.0" = some 5 ∧
    (set_offset (initState 0) "EL" "5.0" =
       some { initState 0 with
                elOff := { accumulated := 5, offset := 5,
                           rate := (initState 0).elOff.rate } } ∧
     set_offset (initState 0) "XEL" "5.0" =
       some { initState 0 with
                xelOff := { accumulated := 5, offset := 5,
                            rate := (initState 0).xelOff.rate } }) := by
  have hd : "5.0".data = ['5', '.', '0'] := rfl
  have hpf : parseFloat "5.0" = some 5 := by
    simp [parseFloat, hd, pyStrip, isSpaceChar, digitsVal, List.dropWhile,
      List.takeWhile, List.foldl]
  exact ⟨hpf, set_offset_writes_accumulated (initState 0) "5.0" 5 hpf⟩

end Sim43
